import Mathlib

/-!
Shallow embedding of the IEC 60870-5-104 master protocol engine
(`iec104_class.cpp`), covering the link state machine, the one-second tick
scheduler, the APDU parser/dispatcher and the command builder.

Machine integers are modelled as `Nat` with explicit `% 2^16` where the C++
code uses `unsigned short` wrap-around; the countdown timers are `Int`
(idle when negative, as in the source).  Logging is ignored; every frame
handed to `sendTCP` and every host upcall is recorded in an output list.
-/

namespace Iec104

/-! ### Protocol constants

`START` and the U/S-format control codes, the cause-of-transmission codes
and the ASDU type identifiers.  The numeric values of the control codes and
causes are fixed by the wire format: the spec gives the literal byte
strings (`68 04 07 00 00 00` for STARTDT-act, `68 04 0B 00 00 00` for
STARTDT-con, `68 04 43 00 00 00` for TESTFR-act, ...) and the source's
`mapCauseStr` table fixes ACT = 6, ACT_CON = 7, ACT_TERM = 10. -/

def START : Nat := 0x68

/-- Modelled from the spec: the class header holding the control-code
constants is not part of the sources; the values below are the ones the
spec's literal byte strings require (C1 = 0x07 for STARTDT-act, etc.). -/
def STARTDTACT : Nat := 0x07

def STARTDTCON : Nat := 0x0B

def STOPDTACT : Nat := 0x13

def STOPDTCON : Nat := 0x23

def TESTFRACT : Nat := 0x43

def TESTFRCON : Nat := 0x83

def SUPERVISORY : Nat := 0x01

def ACTIVATION : Nat := 6

def ACTCONFIRM : Nat := 7

def ACTTERM : Nat := 10

def INTERROGATION : Nat := 100

def C_TS_TA_1 : Nat := 107

def C_RP_NA_1 : Nat := 105

def M_EI_NA_1 : Nat := 70

/-- Modelled from the spec: the timer default constants live in the missing
class header; the spec calls them implementation-defined ("e.g. 30 s").
No theorem below depends on the exact values. -/
def t1_startdtact : Int := 30

def t2_supervisory : Int := 10

def t3_testfr : Int := 20

def gi_retry_time : Int := 45

/-! ### Data model -/

/-- The 6-byte ASDU header (`struct iec_asduh`): type identifier, SQ flag,
object count, cause of transmission with P/N and test bits, originator
address and common address. -/
structure iec_asduh where
  type : Nat
  sq : Nat
  num : Nat
  cause : Nat
  pn : Nat
  t : Nat
  oa : Nat
  ca : Nat
deriving DecidableEq, Repr

/-- A received APDU as the parser sees it: APCI header fields plus the
decoded ASDU header.  `qoi` is the qualifier byte `dados[3]` of a type-100
ASDU (the only payload byte any claim inspects). -/
structure iec_apdu where
  start : Nat
  length : Nat
  NS : Nat
  NR : Nat
  asduh : iec_asduh
  qoi : Nat
deriving DecidableEq, Repr

def zeroAsduh : iec_asduh := ⟨0, 0, 0, 0, 0, 0, 0, 0⟩

/-- Decode the 6 bytes of an APCI-only (U- or S-format) frame into an
`iec_apdu`: start, length, then the two 16-bit little-endian control
fields.  Control frames carry no ASDU, so the header part is zeroed. -/
def decodeAPCI (b : List Nat) : Option iec_apdu :=
  match b with
  | [s, l, c1lo, c1hi, c2lo, c2hi] =>
      some { start := s, length := l, NS := c1lo + 256 * c1hi, NR := c2lo + 256 * c2hi,
             asduh := zeroAsduh, qoi := 0 }
  | _ => none

/-- An outbound transmission handed to `sendTCP`.  `ctrl` is a 6-byte
APCI-only frame (U- or S-format); `info` is an I-frame with its ASDU
header, the type-100 qualifier byte `qoi` (0 when not applicable) and the
APCI length byte.  Command-object payload bytes beyond the header are not
inspected by any claim and are not modelled. -/
inductive TxFrame where
  | ctrl (NS NR : Nat)
  | info (NS NR : Nat) (asduh : iec_asduh) (qoi : Nat) (length : Nat)
deriving DecidableEq, Repr

/-- Wire bytes of a 6-byte APCI frame: start, length, C1 and C2
little-endian (the packed-struct layout the source memcpys out). -/
def apciBytes (ns nr : Nat) : List Nat :=
  [START, 4, ns % 256, ns / 256 % 256, nr % 256, nr / 256 % 256]

def TxFrame.ns : TxFrame → Nat
  | .ctrl n _ => n
  | .info n _ _ _ _ => n

/-- Is this transmission an S-format (supervisory) frame? -/
def TxFrame.isSup : TxFrame → Bool
  | .ctrl n _ => n == SUPERVISORY
  | .info _ _ _ _ _ => false

/-- Host upcalls invoked by the dispatcher.  `interrogationActTerm` records
the value of `GIObjectCnt` at the moment of the upcall. -/
inductive Upcall where
  | dataIndication (num : Nat)
  | commandActResp (typ : Nat)
  | interrogationActConf
  | interrogationActTerm (cnt : Nat)
deriving DecidableEq, Repr

/-- The session state of `iec104_class` (the fields the claims touch).
`VS` and `VR` are stored pre-shifted by one bit, as 16-bit values, exactly
as in the source; the four timers are countdowns that are idle when
negative. -/
structure St where
  connectedTCP : Bool
  TxOk : Bool
  msg_supervisory : Bool
  seq_order_check : Bool
  VS : Nat
  VR : Nat
  test_command_count : Nat
  tout_startdtact : Int
  tout_supervisory : Int
  tout_testfr : Int
  tout_gi : Int
  gi_period : Int
  GIObjectCnt : Nat
  masterAddress : Nat
  slaveAddress : Nat
deriving DecidableEq, Repr

/-- State after the constructor (`iec104_class::iec104_class`). -/
def initialState : St :=
  { connectedTCP := false, TxOk := false, msg_supervisory := true, seq_order_check := true,
    VS := 0, VR := 0, test_command_count := 0,
    tout_startdtact := -1, tout_supervisory := -1, tout_testfr := -1, tout_gi := -1,
    gi_period := 5 * 60 + 30, GIObjectCnt := 0, masterAddress := 0, slaveAddress := 0 }

/-! ### Send-side operations -/

/-- Embeds `iec104_class::sendStartDTACT`: emit the STARTDT-act U-frame and arm
the t1 countdown. -/
def sendStartDTACT (st : St) : St × List TxFrame :=
  ({ st with tout_startdtact := t1_startdtact }, [.ctrl STARTDTACT 0])

/-- Embeds `iec104_class::onConnectTCP`: enter TCP-connected, reset the sequence
counters and the test-command counter, and send STARTDT-act. -/
def onConnectTCP (st : St) : St × List TxFrame :=
  sendStartDTACT
    { st with connectedTCP := true, TxOk := false, VS := 0, VR := 0, test_command_count := 0 }

/-- Embeds `iec104_class::onDisconnectTCP`: leave TCP-connected, clear TxOk and
disarm t1, t2 and tGI (`tout_testfr`, `VS` and `VR` are not touched by the
source). -/
def onDisconnectTCP (st : St) : St :=
  { st with connectedTCP := false, tout_startdtact := -1, tout_supervisory := -1,
            tout_gi := -1, TxOk := false }

/-- Embeds `iec104_class::sendSupervisory`: S-format frame acknowledging with the
current VR. -/
def sendSupervisory (st : St) : St × List TxFrame :=
  (st, [.ctrl SUPERVISORY st.VR])

/-- Embeds `iec104_class::solicitGI`: type-100 I-frame, cause ACTIVATION, station
qualifier 0x14; advances VS by two (stored-shifted) and re-arms tGI with
the retry period. -/
def solicitGI (st : St) : St × List TxFrame :=
  ({ st with VS := (st.VS + 2) % 65536, tout_gi := gi_retry_time },
   [.info st.VS st.VR
      { type := INTERROGATION, sq := 0, num := 1, cause := ACTIVATION, pn := 0, t := 0,
        oa := st.masterAddress, ca := st.slaveAddress } 0x14 0x0E])

/-- Embeds `iec104_class::solicitInterrogation`: same frame as `solicitGI` except
that the qualifier byte `dados[3]` is the caller's `group` argument,
written verbatim. -/
def solicitInterrogation (st : St) (group : Nat) : St × List TxFrame :=
  ({ st with VS := (st.VS + 2) % 65536, tout_gi := gi_retry_time },
   [.info st.VS st.VR
      { type := INTERROGATION, sq := 0, num := 1, cause := ACTIVATION, pn := 0, t := 0,
        oa := st.masterAddress, ca := st.slaveAddress } group 0x0E])

/-- Embeds `iec104_class::confTestCommand`: reply to a received test command with
a type-107 ACT-CON I-frame (length byte 22); advances VS by two. -/
def confTestCommand (st : St) : St × List TxFrame :=
  ({ st with VS := (st.VS + 2) % 65536 },
   [.info st.VS st.VR
      { type := C_TS_TA_1, sq := 0, num := 1, cause := ACTCONFIRM, pn := 0, t := 0,
        oa := st.masterAddress, ca := st.slaveAddress } 0 22])

/-! ### One-second tick (`iec104_class::onTimerSecond`) -/

/-- The t1 block of `onTimerSecond`: decrement an armed STARTDT-act
countdown; on zero, resend STARTDT-act (which re-arms t1). -/
def tickStartDTACT (st : St) : St × List TxFrame :=
  let st := if st.tout_startdtact > 0 then
              { st with tout_startdtact := st.tout_startdtact - 1 } else st
  if st.tout_startdtact = 0 then sendStartDTACT st else (st, [])

/-- The tGI block of `onTimerSecond`: decrement an armed GI countdown; on
zero, issue the general interrogation. -/
def tickGI (st : St) : St × List TxFrame :=
  if st.tout_gi > 0 then
    let st := { st with tout_gi := st.tout_gi - 1 }
    if st.tout_gi = 0 then solicitGI st else (st, [])
  else (st, [])

/-- The t2 block of `onTimerSecond`: when supervisory messaging is
enabled, an armed countdown is decremented twice (each step guarded by
positivity); on zero it is set idle (-1) and the S-frame is sent. -/
def tickSupervisory (st : St) : St × List TxFrame :=
  if st.msg_supervisory then
    let st := if st.tout_supervisory > 0 then
                { st with tout_supervisory := st.tout_supervisory - 1 } else st
    let st := if st.tout_supervisory > 0 then
                { st with tout_supervisory := st.tout_supervisory - 1 } else st
    if st.tout_supervisory = 0 then
      sendSupervisory { st with tout_supervisory := -1 }
    else (st, [])
  else (st, [])

/-- The t3 block of `onTimerSecond`: while connected with TxOk, decrement
an armed test-frame countdown; on zero, send TESTFR-act (the send does not
re-arm the timer, so it fires once). -/
def tickTestfr (st : St) : St × List TxFrame :=
  if st.connectedTCP ∧ st.TxOk then
    if st.tout_testfr > 0 then
      let st := { st with tout_testfr := st.tout_testfr - 1 }
      if st.tout_testfr = 0 then (st, [TxFrame.ctrl TESTFRACT 0]) else (st, [])
    else (st, [])
  else (st, [])

/-- Embeds `iec104_class::onTimerSecond`: the four countdown blocks run in
source order, all gated on the TCP connection being up. -/
def onTimerSecond (st : St) : St × List TxFrame :=
  if st.connectedTCP then
    let a := tickStartDTACT st
    let b := tickGI a.1
    let c := tickSupervisory b.1
    let d := tickTestfr c.1
    (d.1, a.2 ++ b.2 ++ c.2 ++ d.2)
  else
    (st, [])

/-! ### Receive-side dispatcher (`iec104_class::parseAPDU`) -/

/-- The monitoring type identifiers handled by the data switch.  Every one
of these case arms performs the same accounting: add `num` to `GIObjectCnt`
when the cause is in [20, 36] and invoke `dataIndication` once with `num`
objects. -/
def monitoringTypes : List Nat :=
  [1, 3, 5, 9, 21, 11, 13, 30, 31, 32, 20, 7, 33, 34, 35, 36, 15, 37, 38, 39, 40]

/-- The command / read / parameter reply types whose case arms invoke
`commandActRespIndication` exactly once (and change no engine state). -/
def cmdRespTypes : List Nat :=
  [45, 46, 47, 58, 59, 60, 48, 61, 49, 62, 50, 63, 102, 110, 111, 112, 113]

/-- The data-message `switch (papdu->asduh.type)`.  Types 70 (end of
init), 101 and 103 (received counter-interrogation / clock-sync) only log,
as does the `default:` arm for unimplemented types. -/
def dispatchASDU (st : St) (h : iec_asduh) : St × List TxFrame × List Upcall :=
  if h.type ∈ monitoringTypes then
    let st := if 20 ≤ h.cause ∧ h.cause ≤ 36 then
                { st with GIObjectCnt := st.GIObjectCnt + h.num } else st
    (st, [], [.dataIndication h.num])
  else if h.type ∈ cmdRespTypes then
    (st, [], [.commandActResp h.type])
  else if h.type = INTERROGATION then
    let st := { st with tout_gi := st.gi_period }
    if h.cause = ACTCONFIRM then
      ({ st with GIObjectCnt := 0 }, [], [.interrogationActConf])
    else if h.cause = ACTTERM then
      (st, [], [.interrogationActTerm st.GIObjectCnt])
    else (st, [], [])
  else if h.type = C_TS_TA_1 then
    if h.cause = ACTIVATION then
      let (st, fs) := confTestCommand st
      (st, fs, [])
    else (st, [], [])
  else
    (st, [], [])

/-- The accounting block after the data switch (source lines 2508-2526):
re-arm t3 and run the supervisory-acknowledgement machinery (arm t2 if
idle, decrement it once, send an S-frame when it hits zero; when
supervisory messaging is disabled send the S-frame immediately). -/
def superviseAfterData (st : St) : St × List TxFrame :=
  let st := { st with tout_testfr := t3_testfr }
  if st.msg_supervisory then
    let st := if st.tout_supervisory < 0 then
                { st with tout_supervisory := t2_supervisory } else st
    let st := if st.tout_supervisory > 0 then
                { st with tout_supervisory := st.tout_supervisory - 1 } else st
    if st.tout_supervisory = 0 then
      sendSupervisory { st with tout_supervisory := -1 }
    else (st, [])
  else
    sendSupervisory st

/-- Result of `parseAPDU`: new state, frames sent, upcalls made, and
whether `disconnectTCP()` was requested on the transport. -/
structure ParseOut where
  st : St
  frames : List TxFrame
  upcalls : List Upcall
  disconnectReq : Bool
deriving DecidableEq, Repr

/-- Embeds `iec104_class::parseAPDU`.  `sz` is the byte count (`length + 2`);
6-byte frames are U/S control messages, larger frames are data messages.
On a data message the send sequence number is checked against VR
(`VR_NEW != VR && VR_NEW != 2` is a sequence error, fatal when
`seq_order_check` holds), VR is updated optimistically, the ASDU is
dispatched and the post-switch accounting runs. -/
def parseAPDU (st : St) (p : iec_apdu) (sz : Nat) (accountandrespond : Bool := true) :
    ParseOut :=
  if p.start ≠ START then ⟨st, [], [], false⟩
  else if sz = 6 then
    if accountandrespond then
      if p.NS = STARTDTACT then ⟨st, [.ctrl STARTDTCON 0], [], false⟩
      else if p.NS = TESTFRACT then ⟨st, [.ctrl TESTFRCON 0], [], false⟩
      else if p.NS = STARTDTCON then
        ⟨{ st with tout_startdtact := -1, TxOk := true, tout_gi := 15 }, [], [], false⟩
      else ⟨st, [], [], false⟩  -- STOPDT-act/-con, TESTFR-con, S-frame, unknown: log only
    else ⟨st, [], [], false⟩
  else
    if accountandrespond then
      let VR_NEW := p.NS &&& 0xFFFE
      if VR_NEW ≠ st.VR ∧ VR_NEW ≠ 2 ∧ st.seq_order_check then
        ⟨st, [], [], true⟩  -- sequence error: disconnectTCP() and return
      else
        let st := { st with VR := (VR_NEW + 2) % 65536 }
        let (st, fs, ups) := dispatchASDU st p.asduh
        let (st, fs2) := superviseAfterData st
        ⟨st, fs ++ fs2, ups, false⟩
    else
      let (st, fs, ups) := dispatchASDU st p.asduh
      ⟨st, fs, ups, false⟩

/-! ### Command builder (`iec104_class::sendCommand`) -/

/-- The host-supplied command object (`iec_obj`), restricted to the fields
`sendCommand` reads or writes.  The numeric payload, the point-state and
qualifier fields are carried along; the CP56Time2a tag is not modelled
(no claim inspects it). -/
structure iec_obj where
  type : Nat
  address : Nat
  ca : Nat
  cause : Nat
  value : Int
  scs : Nat
  dcs : Nat
  rcs : Nat
  qu : Nat
  se : Nat
  kpa : Nat
  lpc : Nat
  pop : Nat
  qpa : Nat
  frz : Nat
deriving DecidableEq, Repr

/-- The object types the `sendCommand` switch handles; every other type
falls into `default: return false`. -/
def supportedCmdTypes : List Nat :=
  [45, 46, 47, 58, 59, 60, 48, 61, 49, 62, 50, 63, 103, 105, 107, 110, 111, 112, 113,
   101, 102]

/-- The APCI length byte each `sendCommand` case computes from the packed
payload struct sizes (4 control bytes + 6 header bytes + payload).  The
type-105 case reuses `sizeof(asdu107)`, hence 22. -/
def cmdApduLength (t : Nat) : Nat :=
  if t = 45 ∨ t = 46 ∨ t = 47 ∨ t = 113 ∨ t = 101 then 14
  else if t = 58 ∨ t = 59 ∨ t = 60 then 21
  else if t = 48 ∨ t = 49 ∨ t = 110 ∨ t = 111 then 16
  else if t = 61 ∨ t = 62 then 23
  else if t = 50 ∨ t = 112 then 18
  else if t = 63 then 25
  else if t = 103 then 20
  else if t = 105 ∨ t = 107 then 22
  else if t = 102 then 13
  else 0

/-- Marker for the type byte of the type-105 frame, whose case arm never
assigns `asduh.type` (the field keeps indeterminate memory in the
source). -/
def UNASSIGNED_TYPE : Nat := 256

/-- Embeds `iec104_class::sendCommand`.  The cause is forced to ACTIVATION and a
zero common address is defaulted to the configured slave address *before*
the type dispatch, so these two writes to the caller's object happen even
for unsupported types.  Every supported case stamps the current VS into
the frame, sends it, and advances VS by two (stored-shifted); the type-107
case also post-increments the test-sequence counter.  Returns the updated
engine state, the (mutated) caller object, the frames sent, and the `bool`
result. -/
def sendCommand (st : St) (obj : iec_obj) : St × iec_obj × List TxFrame × Bool :=
  let obj := { obj with cause := ACTIVATION }
  let obj := if obj.ca = 0 then { obj with ca := st.slaveAddress } else obj
  if obj.type ∈ supportedCmdTypes then
    let ftyp := if obj.type = C_RP_NA_1 then UNASSIGNED_TYPE else obj.type
    let f := TxFrame.info st.VS st.VR
      { type := ftyp, sq := 0, num := 1, cause := obj.cause, pn := 0, t := 0,
        oa := st.masterAddress, ca := obj.ca } 0 (cmdApduLength obj.type)
    ({ st with VS := (st.VS + 2) % 65536,
               test_command_count :=
                 if obj.type = C_TS_TA_1 then (st.test_command_count + 1) % 65536
                 else st.test_command_count },
     obj, [f], true)
  else
    (st, obj, [], false)

/-! ### Run harnesses

Fold the engine over scripted inputs, accumulating outputs.  Processing
stops once `disconnectTCP()` has been requested (the TCP session is gone).
These drive the claims' multi-step scenarios; each step is exactly one
`parseAPDU` or `sendCommand` call. -/

def runMsgs : St → List (iec_apdu × Nat) → ParseOut
  | st, [] => ⟨st, [], [], false⟩
  | st, (p, sz) :: rest =>
      let r := parseAPDU st p sz true
      if r.disconnectReq then ⟨r.st, r.frames, r.upcalls, true⟩
      else
        let r2 := runMsgs r.st rest
        ⟨r2.st, r.frames ++ r2.frames, r.upcalls ++ r2.upcalls, r2.disconnectReq⟩

/-- A minimal data-message APDU (the parser only branches on `start`, the
size, `NS` and the ASDU header); fed to `parseAPDU` with size 12. -/
def mkDataApdu (ns typ cause num : Nat) : iec_apdu :=
  { start := START, length := 10, NS := ns, NR := 0,
    asduh := { type := typ, sq := 0, num := num, cause := cause, pn := 0, t := 0,
               oa := 0, ca := 0 }, qoi := 0 }

/-- A scripted stream of `n` I-frames with consecutive send sequence
numbers `a, a+1, ...` (stored-shifted: `2a, 2a+2, ...` mod 2^16), all of
an unimplemented ASDU type. -/
def iStream : Nat → Nat → List (iec_apdu × Nat)
  | _, 0 => []
  | a, n + 1 => (mkDataApdu (2 * a % 65536) 0 1 1, 12) :: iStream (a + 1) n

/-- An ASDU as a compliant slave would send it (type, cause, object
count); `runInSeq` stamps each with the engine's current VR so that the
sequence check passes. -/
structure InAsdu where
  typ : Nat
  cause : Nat
  num : Nat
deriving DecidableEq, Repr

def runInSeq : St → List InAsdu → ParseOut
  | st, [] => ⟨st, [], [], false⟩
  | st, a :: rest =>
      let r := parseAPDU st (mkDataApdu st.VR a.typ a.cause a.num) 12 true
      if r.disconnectReq then ⟨r.st, r.frames, r.upcalls, true⟩
      else
        let r2 := runInSeq r.st rest
        ⟨r2.st, r.frames ++ r2.frames, r.upcalls ++ r2.upcalls, r2.disconnectReq⟩

/-- Fold `sendCommand` over a list of host command objects, collecting the
frames of the successful sends in call order. -/
def runCommands : St → List iec_obj → St × List TxFrame
  | st, [] => (st, [])
  | st, o :: rest =>
      let r := sendCommand st o
      let r2 := runCommands r.1 rest
      (r2.1, r.2.2.1 ++ r2.2)

/-! ### Helper lemmas -/

/-- Clearing bit 0 with the mask `0xFFFE` is the identity on even 16-bit
values (the shape of every stored VR). -/
lemma land_fffe_eq_self (n : Nat) (h2 : n % 2 = 0) (hlt : n < 65536) :
    n &&& 65534 = n := by
  apply Nat.eq_of_testBit_eq
  intro i
  rw [Nat.testBit_land]
  rcases Nat.lt_or_ge i 16 with hi | hi
  · rcases Nat.eq_zero_or_pos i with hz | hp
    · subst hz
      have hb : n.testBit 0 = false := by
        simp [Nat.testBit_zero]
        omega
      simp [hb]
    · have hb : Nat.testBit 65534 i = true := by
        interval_cases i <;> decide
      simp [hb]
  · have hpow : (2 : Nat) ^ 16 ≤ 2 ^ i := Nat.pow_le_pow_right (by norm_num) hi
    have h16 : (2 : Nat) ^ 16 = 65536 := by norm_num
    have h1 : n.testBit i = false := Nat.testBit_lt_two_pow (by omega)
    have h2' : Nat.testBit 65534 i = false := Nat.testBit_lt_two_pow (by omega)
    simp [h1, h2']

/-- On a data message whose sequence check passes (match, the tolerated
`VR_NEW == 2`, or check disabled), `parseAPDU` updates VR, dispatches and
runs the post-switch accounting. -/
lemma parse_data_pass (st : St) (p : iec_apdu) (sz : Nat) (hstart : p.start = START)
    (hsz : sz ≠ 6)
    (hpass : p.NS &&& 0xFFFE = st.VR ∨ p.NS &&& 0xFFFE = 2 ∨ st.seq_order_check = false) :
    parseAPDU st p sz true =
      (let st1 : St := { st with VR := ((p.NS &&& 0xFFFE) + 2) % 65536 }
       let d := dispatchASDU st1 p.asduh
       let s := superviseAfterData d.1
       ⟨s.1, d.2.1 ++ s.2, d.2.2, false⟩) := by
  have hcond : ¬(p.NS &&& 0xFFFE ≠ st.VR ∧ p.NS &&& 0xFFFE ≠ 2 ∧ st.seq_order_check) := by
    rcases hpass with h | h | h <;> simp [h]
  simp only [parseAPDU, hstart, hsz, if_neg hcond, if_false, ite_false, ne_eq,
    not_true_eq_false, if_neg]
  simp [hstart, hsz, hcond]

/-- On a data message that fails the sequence check with checking enabled,
`parseAPDU` requests a disconnect and changes nothing. -/
lemma parse_data_fail (st : St) (p : iec_apdu) (sz : Nat) (hstart : p.start = START)
    (hsz : sz ≠ 6) (h1 : p.NS &&& 0xFFFE ≠ st.VR) (h2 : p.NS &&& 0xFFFE ≠ 2)
    (h3 : st.seq_order_check = true) :
    parseAPDU st p sz true = ⟨st, [], [], true⟩ := by
  simp [parseAPDU, hstart, hsz, h1, h2, h3]

/-- Dispatch of a monitoring ASDU with an interrogation-response cause. -/
lemma dispatch_mon (st : St) (h : iec_asduh) (ht : h.type ∈ monitoringTypes)
    (hc : 20 ≤ h.cause ∧ h.cause ≤ 36) :
    dispatchASDU st h =
      ({ st with GIObjectCnt := st.GIObjectCnt + h.num }, [], [.dataIndication h.num]) := by
  simp [dispatchASDU, ht, hc.1, hc.2]

/-- Dispatch of the interrogation ACT-CON. -/
lemma dispatch_actconf (st : St) (h : iec_asduh) (ht : h.type = INTERROGATION)
    (hc : h.cause = ACTCONFIRM) :
    dispatchASDU st h =
      ({ st with tout_gi := st.gi_period, GIObjectCnt := 0 }, [], [.interrogationActConf]) := by
  simp [dispatchASDU, ht, hc, ACTCONFIRM,
    (by decide : ¬(INTERROGATION ∈ monitoringTypes)),
    (by decide : ¬(INTERROGATION ∈ cmdRespTypes))]

/-- Dispatch of the interrogation ACT-TERM: reports the accumulated
`GIObjectCnt`. -/
lemma dispatch_actterm (st : St) (h : iec_asduh) (ht : h.type = INTERROGATION)
    (hc : h.cause = ACTTERM) :
    dispatchASDU st h =
      ({ st with tout_gi := st.gi_period }, [], [.interrogationActTerm st.GIObjectCnt]) := by
  simp [dispatchASDU, ht, hc, ACTCONFIRM, ACTTERM,
    (by decide : ¬(INTERROGATION ∈ monitoringTypes)),
    (by decide : ¬(INTERROGATION ∈ cmdRespTypes))]

/-- Dispatch of a type with no decoder (or a log-only case arm): no state
change, no frame, no upcall. -/
lemma dispatch_unknown (st : St) (h : iec_asduh) (h1 : h.type ∉ monitoringTypes)
    (h2 : h.type ∉ cmdRespTypes) (h3 : h.type ≠ INTERROGATION) (h4 : h.type ≠ C_TS_TA_1) :
    dispatchASDU st h = (st, [], []) := by
  simp [dispatchASDU, h1, h2, h3, h4]

/-- The post-switch accounting touches only the t2/t3 timers and can only
emit an S-frame; every other state field is preserved. -/
@[simp] lemma superviseAfterData_preserves (st : St) :
    (superviseAfterData st).1.VR = st.VR ∧
    (superviseAfterData st).1.VS = st.VS ∧
    (superviseAfterData st).1.GIObjectCnt = st.GIObjectCnt ∧
    (superviseAfterData st).1.seq_order_check = st.seq_order_check ∧
    (superviseAfterData st).1.msg_supervisory = st.msg_supervisory ∧
    (superviseAfterData st).1.gi_period = st.gi_period ∧
    (superviseAfterData st).1.tout_testfr = t3_testfr := by
  simp only [superviseAfterData, sendSupervisory]
  split_ifs <;> simp

/-- Is this transmission the TESTFR-act probe frame? -/
def isTestAct (f : TxFrame) : Bool := f == TxFrame.ctrl TESTFRACT 0

@[simp] lemma tickStartDTACT_fields (st : St) :
    (tickStartDTACT st).1.VR = st.VR ∧ (tickStartDTACT st).1.VS = st.VS ∧
    (tickStartDTACT st).1.connectedTCP = st.connectedTCP ∧
    (tickStartDTACT st).1.TxOk = st.TxOk ∧
    (tickStartDTACT st).1.msg_supervisory = st.msg_supervisory ∧
    (tickStartDTACT st).1.tout_supervisory = st.tout_supervisory ∧
    (tickStartDTACT st).1.tout_testfr = st.tout_testfr := by
  simp only [tickStartDTACT, sendStartDTACT]
  split_ifs <;> simp

@[simp] lemma tickGI_fields (st : St) :
    (tickGI st).1.VR = st.VR ∧
    (tickGI st).1.connectedTCP = st.connectedTCP ∧
    (tickGI st).1.TxOk = st.TxOk ∧
    (tickGI st).1.msg_supervisory = st.msg_supervisory ∧
    (tickGI st).1.tout_supervisory = st.tout_supervisory ∧
    (tickGI st).1.tout_testfr = st.tout_testfr := by
  simp only [tickGI, solicitGI]
  split_ifs <;> simp

@[simp] lemma tickSupervisory_fields (st : St) :
    (tickSupervisory st).1.VR = st.VR ∧
    (tickSupervisory st).1.connectedTCP = st.connectedTCP ∧
    (tickSupervisory st).1.TxOk = st.TxOk ∧
    (tickSupervisory st).1.tout_testfr = st.tout_testfr := by
  simp only [tickSupervisory, sendSupervisory]
  split_ifs <;> simp

@[simp] lemma tickTestfr_fields (st : St) :
    (tickTestfr st).1.VR = st.VR ∧
    (tickTestfr st).1.tout_supervisory = st.tout_supervisory := by
  simp only [tickTestfr]
  split_ifs <;> simp

@[simp] lemma tickStartDTACT_noSup (st : St) :
    (tickStartDTACT st).2.filter TxFrame.isSup = [] := by
  simp only [tickStartDTACT, sendStartDTACT]
  split_ifs <;> simp [TxFrame.isSup, SUPERVISORY, STARTDTACT]

@[simp] lemma tickGI_noSup (st : St) :
    (tickGI st).2.filter TxFrame.isSup = [] := by
  simp only [tickGI, solicitGI]
  split_ifs <;> simp [TxFrame.isSup]

@[simp] lemma tickTestfr_noSup (st : St) :
    (tickTestfr st).2.filter TxFrame.isSup = [] := by
  simp only [tickTestfr]
  split_ifs <;> simp [TxFrame.isSup, SUPERVISORY, TESTFRACT]

@[simp] lemma tickStartDTACT_noTestAct (st : St) :
    (tickStartDTACT st).2.filter isTestAct = [] := by
  simp only [tickStartDTACT, sendStartDTACT]
  split_ifs <;> simp [isTestAct, STARTDTACT, TESTFRACT]

@[simp] lemma tickGI_noTestAct (st : St) :
    (tickGI st).2.filter isTestAct = [] := by
  simp only [tickGI, solicitGI]
  split_ifs <;> simp [isTestAct]

@[simp] lemma tickSupervisory_noTestAct (st : St) :
    (tickSupervisory st).2.filter isTestAct = [] := by
  simp only [tickSupervisory, sendSupervisory]
  split_ifs <;> simp [isTestAct, SUPERVISORY, TESTFRACT]

/-- The t2 block on an armed countdown with supervisory messaging enabled:
two guarded decrements, then fire-and-disarm at zero. -/
lemma tickSupervisory_armed (st : St) (hsup : st.msg_supervisory = true)
    (harmed : 0 < st.tout_supervisory) :
    (2 < st.tout_supervisory →
      tickSupervisory st = ({ st with tout_supervisory := st.tout_supervisory - 2 }, [])) ∧
    (st.tout_supervisory ≤ 2 →
      tickSupervisory st =
        ({ st with tout_supervisory := -1 }, [TxFrame.ctrl SUPERVISORY st.VR])) := by
  simp only [tickSupervisory, sendSupervisory, hsup, if_true]
  constructor
  · intro h3
    have c1 : st.tout_supervisory > 0 := harmed
    have c2 : st.tout_supervisory - 1 > 0 := by omega
    have c3 : ¬(st.tout_supervisory - 1 - 1 = 0) := by omega
    simp [c1, c2, c3]
    omega
  · intro h2
    rcases (by omega : st.tout_supervisory = 1 ∨ st.tout_supervisory = 2) with h | h
    · have c1 : st.tout_supervisory > 0 := harmed
      have c2 : ¬(st.tout_supervisory - 1 > 0) := by omega
      have c3 : st.tout_supervisory - 1 = 0 := by omega
      simp [c1, c2, c3]
    · have c1 : st.tout_supervisory > 0 := harmed
      have c2 : st.tout_supervisory - 1 > 0 := by omega
      have c3 : st.tout_supervisory - 1 - 1 = 0 := by omega
      simp [c1, c2, c3]

/-! ### Claim C5 — double decrement of the supervisory countdown -/

/-- C5: on a one-second tick while connected with supervisory messaging
enabled, an armed t2 countdown is decremented twice (value - 2 while it
stays positive); when it reaches zero it is disarmed (set to -1) and an
S-frame carrying the current VR is sent. -/
theorem C5_supervisory_double_decrement (st : St) (hconn : st.connectedTCP = true)
    (hsup : st.msg_supervisory = true) (harmed : 0 < st.tout_supervisory) :
    (2 < st.tout_supervisory →
      (onTimerSecond st).1.tout_supervisory = st.tout_supervisory - 2 ∧
      (onTimerSecond st).2.filter TxFrame.isSup = []) ∧
    (st.tout_supervisory ≤ 2 →
      (onTimerSecond st).1.tout_supervisory = -1 ∧
      (onTimerSecond st).2.filter TxFrame.isSup = [TxFrame.ctrl SUPERVISORY st.VR]) := by
  have hmsg : (tickGI (tickStartDTACT st).1).1.msg_supervisory = true := by simp [hsup]
  have harm' : 0 < (tickGI (tickStartDTACT st).1).1.tout_supervisory := by simpa using harmed
  constructor
  · intro h3
    have hc := (tickSupervisory_armed _ hmsg harm').1 (by simpa using h3)
    constructor
    · simp only [onTimerSecond, hconn, if_true]
      rw [hc]
      simp
    · simp only [onTimerSecond, hconn, if_true]
      rw [hc]
      simp [List.filter_append]
  · intro h2
    have hc := (tickSupervisory_armed _ hmsg harm').2 (by simpa using h2)
    constructor
    · simp only [onTimerSecond, hconn, if_true]
      rw [hc]
      simp
    · simp only [onTimerSecond, hconn, if_true]
      rw [hc]
      simp [List.filter_append, TxFrame.isSup, SUPERVISORY]

/-- Concrete state for exercising the C5 theorem. -/
def stW5 : St :=
  { initialState with connectedTCP := true, tout_supervisory := 5 }

theorem C5_supervisory_double_decrement_witness :
    (0 < stW5.tout_supervisory ∧ 2 < stW5.tout_supervisory) ∧
    (onTimerSecond stW5).1.tout_supervisory = stW5.tout_supervisory - 2 ∧
    (onTimerSecond stW5).2.filter TxFrame.isSup = [] :=
  ⟨⟨by decide, by decide⟩,
   (C5_supervisory_double_decrement stW5 (by decide) (by decide) (by decide)).1 (by decide)⟩

/-! ### Claim C6 — the t3 test-frame timer -/

/-- Connected state with TxOk and an idle t3 timer; the claimed arming on
S-frame receipt does not happen on it. -/
def stW6 : St := { initialState with connectedTCP := true, TxOk := true }

/-- An S-format frame as decoded from the wire bytes 68 04 01 00 00 00. -/
def SFRAME_APDU : iec_apdu :=
  { start := 0x68, length := 4, NS := 0x01, NR := 0, asduh := zeroAsduh, qoi := 0 }

/-- C6 counterexample: with TxOk true, receiving an S-frame leaves the t3
test-frame countdown idle (still -1), contradicting the claim that t3 is
armed whenever an I- or S-frame is received while TxOk is true (the source
handles S-frames in the control-message switch, which only logs). -/
theorem C6_counterexample :
    stW6.TxOk = true ∧
    decodeAPCI [0x68, 0x04, 0x01, 0x00, 0x00, 0x00] = some SFRAME_APDU ∧
    (parseAPDU stW6 SFRAME_APDU 6 true).st.tout_testfr = -1 ∧
    ¬ 0 < (parseAPDU stW6 SFRAME_APDU 6 true).st.tout_testfr := by decide

/-- C6 amended: t3 is armed by every accepted data (I-format) message,
regardless of TxOk — S-frames do not arm it — and when t3 expires on a
one-second tick while connected with TxOk the engine emits exactly the
TESTFR-act frame 68 04 43 00 00 00. -/
theorem C6_testfr_amended :
    (∀ (st : St) (p : iec_apdu) (sz : Nat), p.start = START → sz ≠ 6 →
      (p.NS &&& 0xFFFE = st.VR ∨ p.NS &&& 0xFFFE = 2 ∨ st.seq_order_check = false) →
      (parseAPDU st p sz true).st.tout_testfr = t3_testfr) ∧
    (∀ st : St, st.connectedTCP = true → st.TxOk = true → st.tout_testfr = 1 →
      (onTimerSecond st).2.filter isTestAct = [TxFrame.ctrl TESTFRACT 0] ∧
      (onTimerSecond st).1.tout_testfr = 0 ∧
      apciBytes TESTFRACT 0 = [0x68, 0x04, 0x43, 0x00, 0x00, 0x00]) := by
  refine ⟨?_, ?_⟩
  · intro st p sz hstart hsz hpass
    rw [parse_data_pass st p sz hstart hsz hpass]
    simp
  · intro st hconn htx ht
    have hfire : tickTestfr (tickSupervisory (tickGI (tickStartDTACT st).1).1).1 =
        ({ (tickSupervisory (tickGI (tickStartDTACT st).1).1).1 with tout_testfr := 0 },
         [TxFrame.ctrl TESTFRACT 0]) := by
      simp [tickTestfr, hconn, htx, ht]
    refine ⟨?_, ?_, by decide⟩
    · simp only [onTimerSecond, hconn, if_true]
      rw [hfire]
      simp [List.filter_append, isTestAct]
    · simp only [onTimerSecond, hconn, if_true]
      rw [hfire]

/-- Connected state with TxOk and the t3 countdown about to expire. -/
def stW6b : St := { initialState with connectedTCP := true, TxOk := true, tout_testfr := 1 }

theorem C6_testfr_amended_witness :
    ((parseAPDU stW6 (mkDataApdu 0 22 3 1) 12 true).st.tout_testfr = t3_testfr) ∧
    ((onTimerSecond stW6b).2.filter isTestAct = [TxFrame.ctrl TESTFRACT 0] ∧
     (onTimerSecond stW6b).1.tout_testfr = 0 ∧
     apciBytes TESTFRACT 0 = [0x68, 0x04, 0x43, 0x00, 0x00, 0x00]) :=
  ⟨C6_testfr_amended.1 stW6 (mkDataApdu 0 22 3 1) 12 (by decide) (by decide)
     (by decide),
   C6_testfr_amended.2 stW6b (by decide) (by decide) (by decide)⟩

/-! ### Claim C2 — control handshake -/

/-- The STARTDT-con frame as decoded from the bytes 68 04 0B 00 00 00. -/
def STARTDTCON_APDU : iec_apdu :=
  { start := 0x68, length := 4, NS := 0x0B, NR := 0, asduh := zeroAsduh, qoi := 0 }

/-- C2: after `on_connect_tcp()` the engine is TCP-connected with VS, VR
and the test-command counter reset, and emits exactly the STARTDT-act
frame 68 04 07 00 00 00; receiving the STARTDT-con frame 68 04 0B 00 00 00
sets TxOk, cancels the t1 countdown and arms the GI timer to 15 ticks. -/
theorem C2_control_handshake (st : St) :
    (onConnectTCP st).1.connectedTCP = true ∧
    (onConnectTCP st).1.VS = 0 ∧ (onConnectTCP st).1.VR = 0 ∧
    (onConnectTCP st).1.test_command_count = 0 ∧
    (onConnectTCP st).2 = [TxFrame.ctrl STARTDTACT 0] ∧
    apciBytes STARTDTACT 0 = [0x68, 0x04, 0x07, 0x00, 0x00, 0x00] ∧
    decodeAPCI [0x68, 0x04, 0x0B, 0x00, 0x00, 0x00] = some STARTDTCON_APDU ∧
    (parseAPDU (onConnectTCP st).1 STARTDTCON_APDU 6 true).st.TxOk = true ∧
    (parseAPDU (onConnectTCP st).1 STARTDTCON_APDU 6 true).st.tout_startdtact = -1 ∧
    (parseAPDU (onConnectTCP st).1 STARTDTCON_APDU 6 true).st.tout_gi = 15 ∧
    (parseAPDU (onConnectTCP st).1 STARTDTCON_APDU 6 true).frames = [] := by
  refine ⟨rfl, rfl, rfl, rfl, rfl, by decide, by decide, ?_, ?_, ?_, ?_⟩ <;>
    simp [parseAPDU, STARTDTCON_APDU, START, STARTDTACT, TESTFRACT, STARTDTCON]

/-! ### Claim C8 — TCP disconnect -/

/-- A connected state with an armed t3 timer and nonzero sequence
counters, to exhibit what `onDisconnectTCP` leaves behind. -/
def stW8 : St :=
  { initialState with connectedTCP := true, TxOk := true, tout_testfr := 5, VS := 4, VR := 6 }

/-- C8 counterexample: after a TCP disconnect the t3 test-frame countdown
is still armed (5, not idle) and VS, VR keep their values — contradicting
the claim that all four timers become idle and the sequence counters are
reset (the source resets VS and VR on connect, not on disconnect). -/
theorem C8_counterexample :
    (onDisconnectTCP stW8).tout_testfr = 5 ∧
    ¬ (onDisconnectTCP stW8).tout_testfr < 0 ∧
    (onDisconnectTCP stW8).VS = 4 ∧ (onDisconnectTCP stW8).VR = 6 := by decide

/-- C8 amended: a TCP disconnect leaves TCP-connected, clears TxOk and
disarms t1, t2 and tGI; the t3 countdown and the VS/VR sequence counters
are left unchanged (they are reset on the next connect). -/
theorem C8_disconnect_amended (st : St) :
    onDisconnectTCP st =
      { st with connectedTCP := false, TxOk := false, tout_startdtact := -1,
                tout_supervisory := -1, tout_gi := -1 } ∧
    (onDisconnectTCP st).tout_testfr = st.tout_testfr ∧
    (onDisconnectTCP st).VS = st.VS ∧ (onDisconnectTCP st).VR = st.VR :=
  ⟨rfl, rfl, rfl, rfl⟩

/-! ### Claim C7 — sendCommand on unsupported types -/

/-- A command object of an unsupported type (0), with a cause that is not
ACTIVATION and a zero common address. -/
def objW7 : iec_obj :=
  { type := 0, address := 1, ca := 0, cause := 3, value := 0, scs := 0, dcs := 0, rcs := 0,
    qu := 0, se := 0, kpa := 0, lpc := 0, pop := 0, qpa := 0, frz := 0 }

/-- Engine state with a configured slave address, for the `ca == 0`
defaulting. -/
def stW7 : St := { initialState with slaveAddress := 7 }

/-- C7 counterexample: for an unsupported type `sendCommand` returns false
with no frame and no engine-state change, but the caller's object IS
modified: its cause is forced to ACTIVATION (6) and its zero `ca` is
overwritten with the slave address — contradicting the claim of no side
effects on the caller's object. -/
theorem C7_counterexample :
    (sendCommand stW7 objW7).2.2.2 = false ∧
    (sendCommand stW7 objW7).2.2.1 = [] ∧
    (sendCommand stW7 objW7).1 = stW7 ∧
    objW7.cause = 3 ∧ (sendCommand stW7 objW7).2.1.cause = ACTIVATION ∧
    objW7.ca = 0 ∧ (sendCommand stW7 objW7).2.1.ca = 7 := by decide

/-- C7 amended: for every unsupported object type `sendCommand` returns
false, hands no frame to the transport and leaves the engine state
(including VS) unchanged; the only side effects are on the caller's
object, whose cause is set to ACTIVATION and whose common address is
defaulted to the slave address when zero. -/
theorem C7_unsupported_amended (st : St) (obj : iec_obj)
    (h : obj.type ∉ supportedCmdTypes) :
    (sendCommand st obj).1 = st ∧
    (sendCommand st obj).2.2.1 = [] ∧
    (sendCommand st obj).2.2.2 = false ∧
    (sendCommand st obj).2.1 =
      { obj with cause := ACTIVATION,
                 ca := if obj.ca = 0 then st.slaveAddress else obj.ca } := by
  by_cases hca : obj.ca = 0 <;> simp [sendCommand, hca, h]

theorem C7_unsupported_amended_witness :
    objW7.type ∉ supportedCmdTypes ∧
    ((sendCommand stW7 objW7).1 = stW7 ∧
     (sendCommand stW7 objW7).2.2.1 = [] ∧
     (sendCommand stW7 objW7).2.2.2 = false ∧
     (sendCommand stW7 objW7).2.1 =
       { objW7 with cause := ACTIVATION,
                    ca := if objW7.ca = 0 then stW7.slaveAddress else objW7.ca }) :=
  ⟨by decide, C7_unsupported_amended stW7 objW7 (by decide)⟩

/-! ### Claim C9 — interrogation qualifiers -/

/-- Modelled from the spec: the host-side request for an individual group
interrogation lives in the GUI, which is not among the sources; per the
spec ("the on-wire qualifier is 20 + G (0x14 for station interrogation,
0x15..0x24 for groups 1..16)") it invokes `solicit_interrogation` with the
qualifier `20 + G` for group `G`. -/
def hostGroupInterrogation (st : St) (G : Nat) : St × List TxFrame :=
  solicitInterrogation st (20 + G)

/-- C9: a host request for group G in [1..16] emits one type-100 ASDU with
cause ACTIVATION whose qualifier byte is 20 + G (so in 0x15..0x24), while
the automatic station interrogation of `solicitGI` carries qualifier
0x14. -/
theorem C9_group_qualifier (st : St) (G : Nat) (h1 : 1 ≤ G) (h16 : G ≤ 16) :
    (hostGroupInterrogation st G).2 =
      [TxFrame.info st.VS st.VR
        { type := INTERROGATION, sq := 0, num := 1, cause := ACTIVATION, pn := 0, t := 0,
          oa := st.masterAddress, ca := st.slaveAddress } (20 + G) 0x0E] ∧
    0x15 ≤ 20 + G ∧ 20 + G ≤ 0x24 ∧
    (solicitGI st).2 =
      [TxFrame.info st.VS st.VR
        { type := INTERROGATION, sq := 0, num := 1, cause := ACTIVATION, pn := 0, t := 0,
          oa := st.masterAddress, ca := st.slaveAddress } 0x14 0x0E] :=
  ⟨rfl, by omega, by omega, rfl⟩

theorem C9_group_qualifier_witness :
    (hostGroupInterrogation initialState 3).2 =
      [TxFrame.info 0 0
        { type := INTERROGATION, sq := 0, num := 1, cause := ACTIVATION, pn := 0, t := 0,
          oa := 0, ca := 0 } 23 0x0E] ∧
    0x15 ≤ 20 + 3 ∧ 20 + 3 ≤ 0x24 ∧
    (solicitGI initialState).2 =
      [TxFrame.info 0 0
        { type := INTERROGATION, sq := 0, num := 1, cause := ACTIVATION, pn := 0, t := 0,
          oa := 0, ca := 0 } 0x14 0x0E] :=
  C9_group_qualifier initialState 3 (by decide) (by decide)

/-! ### Claim C3 — VS monotonicity of sendCommand -/

/-- A successful `sendCommand` emits one frame stamped with the current
(stored-shifted) VS and advances VS by two modulo 2^16. -/
lemma sendCommand_supported (st : St) (obj : iec_obj) (h : obj.type ∈ supportedCmdTypes) :
    (sendCommand st obj).2.2.1.map TxFrame.ns = [st.VS] ∧
    (sendCommand st obj).1.VS = (st.VS + 2) % 65536 := by
  by_cases hca : obj.ca = 0 <;> simp [sendCommand, hca, h, TxFrame.ns]

/-- Folding `sendCommand` over supported objects: the emitted frames carry
VS values `v, v+2, v+4, ...` (stored-shifted, mod 2^16) in call order. -/
lemma runCommands_spec (objs : List iec_obj) : ∀ st : St, st.VS < 65536 →
    (∀ o ∈ objs, o.type ∈ supportedCmdTypes) →
    (runCommands st objs).2.map TxFrame.ns =
      (List.range objs.length).map (fun i => (st.VS + 2 * i) % 65536) ∧
    (runCommands st objs).1.VS = (st.VS + 2 * objs.length) % 65536 := by
  induction objs with
  | nil =>
      intro st h _
      constructor
      · simp [runCommands]
      · simp only [runCommands, List.length_nil, Nat.mul_zero, Nat.add_zero]
        omega
  | cons o rest ih =>
      intro st h hs
      have ho : o.type ∈ supportedCmdTypes := hs o (by simp)
      have hsc := sendCommand_supported st o ho
      have hlt : (sendCommand st o).1.VS < 65536 := by
        rw [hsc.2]; omega
      have hrest := ih (sendCommand st o).1 hlt (fun x hx => hs x (by simp [hx]))
      constructor
      · simp only [runCommands, List.map_append, hsc.1, hrest.1, List.length_cons,
          List.range_succ_eq_map, List.map_cons, List.map_map]
        have hhead : (st.VS + 2 * 0) % 65536 = st.VS := by omega
        rw [hhead]
        simp only [List.singleton_append, List.cons.injEq, true_and]
        apply List.map_congr_left
        intro a _
        simp only [Function.comp_apply, hsc.2]
        omega
      · simp only [runCommands, hrest.2, hsc.2, List.length_cons]
        omega

/-- C3: N `send_command` calls with supported types, starting from stored
VS = v < 2^16, emit N frames stamped v, v+2, ..., v+2(N-1) mod 2^16 in
call order (equivalently send numbers v/2, v/2+1, ... mod 2^15), leaving
VS = v + 2N mod 2^16. -/
theorem C3_vs_monotonic (st : St) (objs : List iec_obj) (hVS : st.VS < 65536)
    (hsup : ∀ o ∈ objs, o.type ∈ supportedCmdTypes) :
    (runCommands st objs).2.map TxFrame.ns =
      (List.range objs.length).map (fun i => (st.VS + 2 * i) % 65536) ∧
    (runCommands st objs).1.VS = (st.VS + 2 * objs.length) % 65536 ∧
    (st.VS % 2 = 0 →
      (runCommands st objs).2.map (fun f => f.ns / 2) =
        (List.range objs.length).map (fun i => (st.VS / 2 + i) % 32768)) := by
  obtain ⟨h1, h2⟩ := runCommands_spec objs st hVS hsup
  refine ⟨h1, h2, ?_⟩
  intro heven
  have : (runCommands st objs).2.map (fun f => f.ns / 2) =
      ((runCommands st objs).2.map TxFrame.ns).map (fun n => n / 2) := by
    rw [List.map_map]; rfl
  rw [this, h1, List.map_map]
  apply List.map_congr_left
  intro a _
  simp only [Function.comp_apply]
  omega

/-- Starting state exercising the 16-bit wrap of the stored VS. -/
def stW3 : St := { initialState with VS := 65534 }

/-- Two supported command objects (a single command and a test command
with time tag). -/
def objsW3 : List iec_obj :=
  [{ objW7 with type := 45, ca := 1 }, { objW7 with type := 107, ca := 1 }]

theorem C3_vs_monotonic_witness :
    (stW3.VS < 65536 ∧ ∀ o ∈ objsW3, o.type ∈ supportedCmdTypes) ∧
    (runCommands stW3 objsW3).2.map TxFrame.ns =
      (List.range objsW3.length).map (fun i => (stW3.VS + 2 * i) % 65536) ∧
    (runCommands stW3 objsW3).1.VS = (stW3.VS + 2 * objsW3.length) % 65536 ∧
    (stW3.VS % 2 = 0 →
      (runCommands stW3 objsW3).2.map (fun f => f.ns / 2) =
        (List.range objsW3.length).map (fun i => (stW3.VS / 2 + i) % 32768)) :=
  ⟨⟨by decide, by decide⟩, C3_vs_monotonic stW3 objsW3 (by decide) (by decide)⟩

/-! ### Claim C1 — sequence-number discipline -/

/-- The data switch never touches the receive sequence counter. -/
@[simp] lemma dispatchASDU_VR (st : St) (h : iec_asduh) :
    (dispatchASDU st h).1.VR = st.VR := by
  simp only [dispatchASDU, confTestCommand]
  split_ifs <;> simp

/-- Processing one in-sequence data message of a type with no decoder:
accepted, VR advances by two (stored-shifted). -/
lemma parse_unknown_inseq (st : St) (p : iec_apdu) (sz : Nat) (hstart : p.start = START)
    (hsz : sz ≠ 6) (h2 : st.VR % 2 = 0) (hlt : st.VR < 65536) (hNS : p.NS = st.VR)
    (hty : p.asduh.type ∉ monitoringTypes ∧ p.asduh.type ∉ cmdRespTypes ∧
           p.asduh.type ≠ INTERROGATION ∧ p.asduh.type ≠ C_TS_TA_1) :
    (parseAPDU st p sz true).disconnectReq = false ∧
    (parseAPDU st p sz true).st.VR = (st.VR + 2) % 65536 := by
  have hland : p.NS &&& 0xFFFE = st.VR := by
    rw [hNS]; exact land_fffe_eq_self _ h2 hlt
  rw [parse_data_pass st p sz hstart hsz (Or.inl hland)]
  have hd : ∀ s : St, dispatchASDU s p.asduh = (s, [], []) := fun s =>
    dispatch_unknown s p.asduh hty.1 hty.2.1 hty.2.2.1 hty.2.2.2
  simp [hd, hland]

/-- Feeding a stream of consecutively numbered unknown-type I-frames never
disconnects and advances VR one send number per frame. -/
lemma runMsgs_iStream (n : Nat) : ∀ (a : Nat) (st : St), st.VR = 2 * a % 65536 →
    (runMsgs st (iStream a n)).disconnectReq = false ∧
    (runMsgs st (iStream a n)).st.VR = 2 * (a + n) % 65536 := by
  induction n with
  | zero =>
      intro a st h
      simp [runMsgs, iStream, h]
  | succ n ih =>
      intro a st h
      have h2 : st.VR % 2 = 0 := by omega
      have hlt : st.VR < 65536 := by omega
      have hstep := parse_unknown_inseq st (mkDataApdu st.VR 0 1 1) 12 rfl (by decide)
        h2 hlt rfl
        ⟨(by decide : (0 : Nat) ∉ monitoringTypes), (by decide : (0 : Nat) ∉ cmdRespTypes),
         (by decide : (0 : Nat) ≠ INTERROGATION), (by decide : (0 : Nat) ≠ C_TS_TA_1)⟩
      have hstream : iStream a (n + 1) = (mkDataApdu st.VR 0 1 1, 12) :: iStream (a + 1) n := by
        rw [iStream, h]
      rw [hstream]
      simp only [runMsgs, hstep.1, Bool.false_eq_true, if_false]
      have hIH := ih (a + 1) (parseAPDU st (mkDataApdu st.VR 0 1 1) 12 true).st
        (by rw [hstep.2, h]; omega)
      refine ⟨hIH.1, ?_⟩
      rw [hIH.2]
      congr 1
      omega

/-- C1 amended: for an incoming I-frame with send number N the engine
expects N == VR, tolerating N == 1 (stored VR_NEW == 2) at ANY time, not
only on the very first I-frame after connect; a mismatch outside this
tolerance closes the TCP connection when sequence-order checking is
enabled and otherwise (tolerated, or checking disabled) VR is set
optimistically to N+1.  A stream of I-frames with send numbers 0..k after
connect causes no disconnect and leaves VR at k+1 (stored-shifted
2(k+1) mod 2^16). -/
theorem C1_sequence_discipline :
    (∀ (st : St) (k : Nat), st.seq_order_check = true → st.VR = 0 →
      (runMsgs st (iStream 0 (k + 1))).disconnectReq = false ∧
      (runMsgs st (iStream 0 (k + 1))).st.VR = 2 * (k + 1) % 65536) ∧
    (∀ (st : St) (p : iec_apdu) (sz : Nat), p.start = START → sz ≠ 6 →
      ((p.NS &&& 0xFFFE ≠ st.VR ∧ p.NS &&& 0xFFFE ≠ 2 ∧ st.seq_order_check = true) →
        parseAPDU st p sz true = ⟨st, [], [], true⟩) ∧
      ((p.NS &&& 0xFFFE = st.VR ∨ p.NS &&& 0xFFFE = 2 ∨ st.seq_order_check = false) →
        (parseAPDU st p sz true).disconnectReq = false ∧
        (parseAPDU st p sz true).st.VR = ((p.NS &&& 0xFFFE) + 2) % 65536)) := by
  constructor
  · intro st k _ hVR
    have := runMsgs_iStream (k + 1) 0 st (by simpa using hVR)
    simpa using this
  · intro st p sz hstart hsz
    constructor
    · rintro ⟨ha, hb, hc⟩
      exact parse_data_fail st p sz hstart hsz ha hb hc
    · intro hpass
      rw [parse_data_pass st p sz hstart hsz hpass]
      simp

/-- The engine state right after a TCP connect (VR = 0, checking on). -/
def stC1 : St := (onConnectTCP initialState).1

/-- C1 counterexample: with sequence checking enabled, after in-sequence
frames with send numbers 0 and 1 (VR now expects 2), a third frame with
send number 1 again is a mismatch that the claim says closes the TCP
connection — but the source tolerates VR_NEW == 2 at any time, so no
disconnect happens and VR is (re)set to 4 (send number 2). -/
theorem C1_counterexample :
    stC1.seq_order_check = true ∧
    (runMsgs stC1 [(mkDataApdu 0 0 1 1, 12), (mkDataApdu 2 0 1 1, 12),
                   (mkDataApdu 2 0 1 1, 12)]).disconnectReq = false ∧
    (runMsgs stC1 [(mkDataApdu 0 0 1 1, 12), (mkDataApdu 2 0 1 1, 12),
                   (mkDataApdu 2 0 1 1, 12)]).st.VR = 4 := by decide

/-- A state expecting send number 2 (stored VR = 4), for the mismatch
branch. -/
def stC1mm : St := { stC1 with VR := 4 }

theorem C1_sequence_discipline_witness :
    ((runMsgs stC1 (iStream 0 4)).disconnectReq = false ∧
     (runMsgs stC1 (iStream 0 4)).st.VR = 2 * 4 % 65536) ∧
    parseAPDU stC1mm (mkDataApdu 8 0 1 1) 12 true = ⟨stC1mm, [], [], true⟩ :=
  ⟨C1_sequence_discipline.1 stC1 3 (by decide) (by decide),
   (C1_sequence_discipline.2 stC1mm (mkDataApdu 8 0 1 1) 12 (by decide) (by decide)).1
     ⟨by decide, by decide, by decide⟩⟩

/-! ### Claim C4 — general-interrogation accounting -/

@[simp] lemma mkDataApdu_asduh (ns typ cause num : Nat) :
    (mkDataApdu ns typ cause num).asduh =
      { type := typ, sq := 0, num := num, cause := cause, pn := 0, t := 0, oa := 0, ca := 0 } :=
  rfl

/-- Processing an in-sequence data message reduces to dispatch plus the
post-switch accounting. -/
lemma parse_inseq_eq (st : St) (typ cause num : Nat) (h2 : st.VR % 2 = 0)
    (hlt : st.VR < 65536) :
    parseAPDU st (mkDataApdu st.VR typ cause num) 12 true =
      (let d := dispatchASDU { st with VR := (st.VR + 2) % 65536 }
         (mkDataApdu st.VR typ cause num).asduh
       let s := superviseAfterData d.1
       ⟨s.1, d.2.1 ++ s.2, d.2.2, false⟩) := by
  have hland : (mkDataApdu st.VR typ cause num).NS &&& 0xFFFE = st.VR :=
    land_fffe_eq_self _ h2 hlt
  rw [parse_data_pass st _ 12 rfl (by decide) (Or.inl hland)]
  simp only [hland]

/-- One in-sequence monitoring ASDU with an interrogation-response cause:
one `dataIndication` upcall and `GIObjectCnt` grows by the object count. -/
lemma parse_mon_step (st : St) (m : InAsdu) (h2 : st.VR % 2 = 0) (hlt : st.VR < 65536)
    (hm : m.typ ∈ monitoringTypes) (hc : 20 ≤ m.cause ∧ m.cause ≤ 36) :
    (parseAPDU st (mkDataApdu st.VR m.typ m.cause m.num) 12 true).disconnectReq = false ∧
    (parseAPDU st (mkDataApdu st.VR m.typ m.cause m.num) 12 true).upcalls =
      [Upcall.dataIndication m.num] ∧
    (parseAPDU st (mkDataApdu st.VR m.typ m.cause m.num) 12 true).st.GIObjectCnt =
      st.GIObjectCnt + m.num ∧
    (parseAPDU st (mkDataApdu st.VR m.typ m.cause m.num) 12 true).st.VR =
      (st.VR + 2) % 65536 := by
  rw [parse_inseq_eq st _ _ _ h2 hlt]
  simp only [mkDataApdu_asduh]
  have hd := dispatch_mon { st with VR := (st.VR + 2) % 65536 }
    { type := m.typ, sq := 0, num := m.num, cause := m.cause, pn := 0, t := 0, oa := 0, ca := 0 }
    hm hc
  simp [hd]

/-- One in-sequence interrogation ACT-CON: `GIObjectCnt` is reset to 0 and
`interrogationActConfIndication` is invoked. -/
lemma parse_actconf_step (st : St) (h2 : st.VR % 2 = 0) (hlt : st.VR < 65536) (num : Nat) :
    (parseAPDU st (mkDataApdu st.VR 100 7 num) 12 true).disconnectReq = false ∧
    (parseAPDU st (mkDataApdu st.VR 100 7 num) 12 true).upcalls =
      [Upcall.interrogationActConf] ∧
    (parseAPDU st (mkDataApdu st.VR 100 7 num) 12 true).st.GIObjectCnt = 0 ∧
    (parseAPDU st (mkDataApdu st.VR 100 7 num) 12 true).st.VR = (st.VR + 2) % 65536 := by
  rw [parse_inseq_eq st _ _ _ h2 hlt]
  simp only [mkDataApdu_asduh]
  have hd := dispatch_actconf { st with VR := (st.VR + 2) % 65536 }
    { type := 100, sq := 0, num := num, cause := 7, pn := 0, t := 0, oa := 0, ca := 0 }
    rfl rfl
  simp [hd]

/-- One in-sequence interrogation ACT-TERM:
`interrogationActTermIndication` is invoked with the current
`GIObjectCnt`, which is left unchanged. -/
lemma parse_actterm_step (st : St) (h2 : st.VR % 2 = 0) (hlt : st.VR < 65536) (num : Nat) :
    (parseAPDU st (mkDataApdu st.VR 100 10 num) 12 true).disconnectReq = false ∧
    (parseAPDU st (mkDataApdu st.VR 100 10 num) 12 true).upcalls =
      [Upcall.interrogationActTerm st.GIObjectCnt] ∧
    (parseAPDU st (mkDataApdu st.VR 100 10 num) 12 true).st.GIObjectCnt =
      st.GIObjectCnt := by
  rw [parse_inseq_eq st _ _ _ h2 hlt]
  simp only [mkDataApdu_asduh]
  have hd := dispatch_actterm { st with VR := (st.VR + 2) % 65536 }
    { type := 100, sq := 0, num := num, cause := 10, pn := 0, t := 0, oa := 0, ca := 0 }
    rfl rfl
  simp [hd]

/-- Folding `runInSeq` over monitoring ASDUs with interrogation-response
causes: one `dataIndication` per ASDU, `GIObjectCnt` grows by the total
object count, no disconnect. -/
lemma runInSeq_mons (ms : List InAsdu) : ∀ st : St, st.VR % 2 = 0 → st.VR < 65536 →
    (∀ m ∈ ms, m.typ ∈ monitoringTypes ∧ 20 ≤ m.cause ∧ m.cause ≤ 36) →
    (runInSeq st ms).disconnectReq = false ∧
    (runInSeq st ms).upcalls = ms.map (fun m => Upcall.dataIndication m.num) ∧
    (runInSeq st ms).st.GIObjectCnt = st.GIObjectCnt + (ms.map InAsdu.num).sum ∧
    (runInSeq st ms).st.VR % 2 = 0 ∧ (runInSeq st ms).st.VR < 65536 := by
  induction ms with
  | nil =>
      intro st h2 hlt _
      simp [runInSeq, h2, hlt]
  | cons m rest ih =>
      intro st h2 hlt hall
      have hm := hall m (by simp)
      have hstep := parse_mon_step st m h2 hlt hm.1 ⟨hm.2.1, hm.2.2⟩
      simp only [runInSeq, hstep.1, Bool.false_eq_true, if_false]
      have h2' : (parseAPDU st (mkDataApdu st.VR m.typ m.cause m.num) 12 true).st.VR % 2 = 0 := by
        rw [hstep.2.2.2]; omega
      have hlt' : (parseAPDU st (mkDataApdu st.VR m.typ m.cause m.num) 12 true).st.VR < 65536 := by
        rw [hstep.2.2.2]; omega
      have hIH := ih (parseAPDU st (mkDataApdu st.VR m.typ m.cause m.num) 12 true).st
        h2' hlt' (fun x hx => hall x (by simp [hx]))
      refine ⟨hIH.1, ?_, ?_, hIH.2.2.2.1, hIH.2.2.2.2⟩
      · rw [hstep.2.1, hIH.2.1]
        simp
      · rw [hIH.2.2.1, hstep.2.2.1]
        simp only [List.map_cons, List.sum_cons]
        omega

/-- If a prefix of the script causes no disconnect, `runInSeq` over the
concatenation splits into the two runs. -/
lemma runInSeq_append (l1 l2 : List InAsdu) : ∀ st : St,
    (runInSeq st l1).disconnectReq = false →
    runInSeq st (l1 ++ l2) =
      ⟨(runInSeq (runInSeq st l1).st l2).st,
       (runInSeq st l1).frames ++ (runInSeq (runInSeq st l1).st l2).frames,
       (runInSeq st l1).upcalls ++ (runInSeq (runInSeq st l1).st l2).upcalls,
       (runInSeq (runInSeq st l1).st l2).disconnectReq⟩ := by
  induction l1 with
  | nil =>
      intro st _
      simp [runInSeq]
  | cons x rest ih =>
      intro st h
      by_cases hd : (parseAPDU st (mkDataApdu st.VR x.typ x.cause x.num) 12 true).disconnectReq
      · exfalso
        simp [runInSeq, hd] at h
      · have hrest : (runInSeq (parseAPDU st
            (mkDataApdu st.VR x.typ x.cause x.num) 12 true).st rest).disconnectReq = false := by
          simp only [runInSeq, Bool.not_eq_true] at h ⊢
          simpa [hd] using h
        simp only [List.cons_append, runInSeq, hd, Bool.false_eq_true, if_false,
          List.append_eq]
        rw [ih _ hrest]
        simp

/-- A non-disconnecting head step of `runInSeq` unfolds to the
combination of the parse result and the run over the tail. -/
lemma runInSeq_cons_ok (st : St) (a : InAsdu) (rest : List InAsdu)
    (h : (parseAPDU st (mkDataApdu st.VR a.typ a.cause a.num) 12 true).disconnectReq = false) :
    runInSeq st (a :: rest) =
      ⟨(runInSeq (parseAPDU st (mkDataApdu st.VR a.typ a.cause a.num) 12 true).st rest).st,
       (parseAPDU st (mkDataApdu st.VR a.typ a.cause a.num) 12 true).frames ++
         (runInSeq (parseAPDU st (mkDataApdu st.VR a.typ a.cause a.num) 12 true).st rest).frames,
       (parseAPDU st (mkDataApdu st.VR a.typ a.cause a.num) 12 true).upcalls ++
         (runInSeq (parseAPDU st (mkDataApdu st.VR a.typ a.cause a.num) 12 true).st rest).upcalls,
       (runInSeq (parseAPDU st (mkDataApdu st.VR a.typ a.cause a.num) 12 true).st rest).disconnectReq⟩ := by
  simp only [runInSeq, h, Bool.false_eq_true, if_false]

/-- C4: a GI cycle — interrogation ACT-CON, then monitoring ASDUs with
causes in [20, 36] totalling M objects, then ACT-TERM — resets GIObjectCnt
at ACT-CON, accumulates the M objects, and invokes
`interrogation_act_term_indication` with GIObjectCnt = M. -/
theorem C4_gi_accounting (st : St) (ms : List InAsdu)
    (h2 : st.VR % 2 = 0) (hlt : st.VR < 65536)
    (hall : ∀ m ∈ ms, m.typ ∈ monitoringTypes ∧ 20 ≤ m.cause ∧ m.cause ≤ 36) :
    (runInSeq st (⟨100, 7, 1⟩ :: (ms ++ [⟨100, 10, 1⟩]))).disconnectReq = false ∧
    (runInSeq st (⟨100, 7, 1⟩ :: (ms ++ [⟨100, 10, 1⟩]))).upcalls =
      Upcall.interrogationActConf :: ms.map (fun m => Upcall.dataIndication m.num)
        ++ [Upcall.interrogationActTerm (ms.map InAsdu.num).sum] ∧
    (runInSeq st (⟨100, 7, 1⟩ :: (ms ++ [⟨100, 10, 1⟩]))).st.GIObjectCnt =
      (ms.map InAsdu.num).sum := by
  have hstep0 := parse_actconf_step st h2 hlt 1
  have h20 : (parseAPDU st (mkDataApdu st.VR 100 7 1) 12 true).st.VR % 2 = 0 := by
    rw [hstep0.2.2.2]; omega
  have hlt0 : (parseAPDU st (mkDataApdu st.VR 100 7 1) 12 true).st.VR < 65536 := by
    rw [hstep0.2.2.2]; omega
  have hmons := runInSeq_mons ms _ h20 hlt0 hall
  have happ := runInSeq_append ms [⟨100, 10, 1⟩] _ hmons.1
  have hterm := parse_actterm_step (runInSeq (parseAPDU st
    (mkDataApdu st.VR 100 7 1) 12 true).st ms).st hmons.2.2.2.1 hmons.2.2.2.2 1
  have hsingle := runInSeq_cons_ok (runInSeq (parseAPDU st
    (mkDataApdu st.VR 100 7 1) 12 true).st ms).st ⟨100, 10, 1⟩ [] hterm.1
  have hcons : runInSeq st (⟨100, 7, 1⟩ :: (ms ++ [⟨100, 10, 1⟩])) = _ :=
    runInSeq_cons_ok st ⟨100, 7, 1⟩ (ms ++ [⟨100, 10, 1⟩]) hstep0.1
  rw [hcons]
  dsimp only
  rw [happ, hsingle]
  dsimp only
  refine ⟨by simp [runInSeq], ?_, ?_⟩
  · rw [hstep0.2.1, hmons.2.1, hterm.2.1, hmons.2.2.1, hstep0.2.2.1]
    simp [runInSeq]
  · simp only [runInSeq]
    rw [hterm.2.2, hmons.2.2.1, hstep0.2.2.1]
    simp

/-- Post-connect state for the C4 witness. -/
def stW4 : St := (onConnectTCP initialState).1

/-- Three monitoring ASDUs (types 1, 13, 9) carrying 2 + 3 + 5 objects
with interrogation-response causes. -/
def msW4 : List InAsdu := [⟨1, 20, 2⟩, ⟨13, 36, 3⟩, ⟨9, 21, 5⟩]

theorem C4_gi_accounting_witness :
    (stW4.VR % 2 = 0 ∧ stW4.VR < 65536 ∧
      ∀ m ∈ msW4, m.typ ∈ monitoringTypes ∧ 20 ≤ m.cause ∧ m.cause ≤ 36) ∧
    (runInSeq stW4 (⟨100, 7, 1⟩ :: (msW4 ++ [⟨100, 10, 1⟩]))).upcalls =
      Upcall.interrogationActConf :: msW4.map (fun m => Upcall.dataIndication m.num)
        ++ [Upcall.interrogationActTerm (msW4.map InAsdu.num).sum] ∧
    (runInSeq stW4 (⟨100, 7, 1⟩ :: (msW4 ++ [⟨100, 10, 1⟩]))).st.GIObjectCnt =
      (msW4.map InAsdu.num).sum :=
  ⟨⟨by decide, by decide, by decide⟩,
   (C4_gi_accounting stW4 msW4 (by decide) (by decide) (by decide)).2⟩

/-! ### Claim C10 — link-layer accounting for ASDU types with no decoder -/

/-- All ASDU type identifiers with a case arm in the data switch (the
monitoring decoders, the command/parameter reply arms, and the log-only
arms for end-of-init 70, interrogation 100, counter-interrogation 101,
clock-sync 103 and test-command 107). -/
def handledDataTypes : List Nat :=
  monitoringTypes ++ cmdRespTypes ++ [M_EI_NA_1, INTERROGATION, 101, 103, C_TS_TA_1]

/-- Full behaviour of the post-switch accounting: t3 is re-armed and the
t2 machinery runs — arm if idle, decrement once, fire-and-disarm at zero —
while with supervisory messaging disabled the S-frame is sent at once. -/
lemma superviseAfterData_spec (st : St) :
    (st.msg_supervisory = false →
      superviseAfterData st =
        ({ st with tout_testfr := t3_testfr }, [TxFrame.ctrl SUPERVISORY st.VR])) ∧
    (st.msg_supervisory = true →
      (let t0 : Int := if st.tout_supervisory < 0 then t2_supervisory else st.tout_supervisory
       let t1 : Int := if 0 < t0 then t0 - 1 else t0
       (t1 = 0 →
          superviseAfterData st =
            ({ st with tout_testfr := t3_testfr, tout_supervisory := -1 },
             [TxFrame.ctrl SUPERVISORY st.VR])) ∧
       (t1 ≠ 0 →
          superviseAfterData st =
            ({ st with tout_testfr := t3_testfr, tout_supervisory := t1 }, [])))) := by
  constructor
  · intro hsup
    simp [superviseAfterData, sendSupervisory, hsup]
  · intro hsup
    by_cases hneg : st.tout_supervisory < 0
    · have h10 : ¬((10 : Int) - 1 = 0) := by omega
      simp [superviseAfterData, sendSupervisory, hsup, hneg, t2_supervisory]
    · by_cases hpos : 0 < st.tout_supervisory
      · by_cases hone : st.tout_supervisory - 1 = 0
        · simp [superviseAfterData, sendSupervisory, hsup, hneg, hpos, hone]
        · simp [superviseAfterData, sendSupervisory, hsup, hneg, hpos, hone]
      · have hzero : st.tout_supervisory = 0 := by omega
        simp [superviseAfterData, sendSupervisory, hsup, hneg, hpos, hzero]

/-- C10: a data message whose ASDU type has no decoder still gets the full
link-layer accounting of a supported type — VR advances to the frame's
send number plus one, t3 is re-armed, and the t2/supervisory machinery
runs (an immediate S-frame with the new VR when supervisory messaging is
disabled) — while no host upcall is made for the discarded ASDU. -/
theorem C10_unknown_type_accounting (st : St) (p : iec_apdu) (sz : Nat)
    (hstart : p.start = START) (hsz : sz ≠ 6)
    (hunk : p.asduh.type ∉ handledDataTypes)
    (hpass : p.NS &&& 0xFFFE = st.VR ∨ p.NS &&& 0xFFFE = 2 ∨ st.seq_order_check = false) :
    (parseAPDU st p sz true).upcalls = [] ∧
    (parseAPDU st p sz true).st.VR = ((p.NS &&& 0xFFFE) + 2) % 65536 ∧
    (parseAPDU st p sz true).st.tout_testfr = t3_testfr ∧
    (st.msg_supervisory = false →
      (parseAPDU st p sz true).frames =
        [TxFrame.ctrl SUPERVISORY (((p.NS &&& 0xFFFE) + 2) % 65536)]) ∧
    (st.msg_supervisory = true →
      (let t0 : Int := if st.tout_supervisory < 0 then t2_supervisory else st.tout_supervisory
       let t1 : Int := if 0 < t0 then t0 - 1 else t0
       (t1 = 0 →
          (parseAPDU st p sz true).st.tout_supervisory = -1 ∧
          (parseAPDU st p sz true).frames =
            [TxFrame.ctrl SUPERVISORY (((p.NS &&& 0xFFFE) + 2) % 65536)]) ∧
       (t1 ≠ 0 →
          (parseAPDU st p sz true).st.tout_supervisory = t1 ∧
          (parseAPDU st p sz true).frames = []))) := by
  have ht1 : p.asduh.type ∉ monitoringTypes := fun hm =>
    hunk (by simp only [handledDataTypes, List.mem_append]; exact Or.inl (Or.inl hm))
  have ht2 : p.asduh.type ∉ cmdRespTypes := fun hm =>
    hunk (by simp only [handledDataTypes, List.mem_append]; exact Or.inl (Or.inr hm))
  have ht3 : p.asduh.type ≠ INTERROGATION := fun hm => hunk (by rw [hm]; decide)
  have ht4 : p.asduh.type ≠ C_TS_TA_1 := fun hm => hunk (by rw [hm]; decide)
  rw [parse_data_pass st p sz hstart hsz hpass]
  have hd : dispatchASDU { st with VR := ((p.NS &&& 0xFFFE) + 2) % 65536 } p.asduh =
      ({ st with VR := ((p.NS &&& 0xFFFE) + 2) % 65536 }, [], []) :=
    dispatch_unknown _ _ ht1 ht2 ht3 ht4
  dsimp only
  rw [hd]
  dsimp only
  have hs := superviseAfterData_spec { st with VR := ((p.NS &&& 0xFFFE) + 2) % 65536 }
  refine ⟨rfl, by simp, by simp, ?_, ?_⟩
  · intro hsupf
    have hss := hs.1 hsupf
    simp [hss]
  · intro hsupt
    have h2 := hs.2 hsupt
    dsimp only at h2 ⊢
    refine ⟨fun h0 => ?_, fun h0 => ?_⟩
    · have hss := h2.1 h0
      simp [hss]
    · have hss := h2.2 h0
      simp [hss]

/-- State with supervisory messaging disabled, for the immediate-S-frame
path. -/
def stW10 : St := { initialState with msg_supervisory := false }

theorem C10_unknown_type_accounting_witness :
    ((mkDataApdu 0 22 3 1).asduh.type ∉ handledDataTypes ∧
      stW10.msg_supervisory = false) ∧
    (parseAPDU stW10 (mkDataApdu 0 22 3 1) 12 true).upcalls = [] ∧
    (parseAPDU stW10 (mkDataApdu 0 22 3 1) 12 true).st.VR =
      (((mkDataApdu 0 22 3 1).NS &&& 0xFFFE) + 2) % 65536 ∧
    (parseAPDU stW10 (mkDataApdu 0 22 3 1) 12 true).st.tout_testfr = t3_testfr ∧
    (parseAPDU stW10 (mkDataApdu 0 22 3 1) 12 true).frames =
      [TxFrame.ctrl SUPERVISORY ((((mkDataApdu 0 22 3 1).NS &&& 0xFFFE) + 2) % 65536)] :=
  have h := C10_unknown_type_accounting stW10 (mkDataApdu 0 22 3 1) 12 (by decide)
    (by decide) (by decide) (by decide)
  ⟨⟨by decide, by decide⟩, h.1, h.2.1, h.2.2.1, h.2.2.2.1 (by decide)⟩

end Iec104
